import Mathlib

/-!
Shallow embedding of feroxbuster's `src/main.rs` (scan orchestration and
output-multiplexing core): the wordlist loader, target resolver, scan
orchestrator, terminal input handler (pause/resume controller) and the
shutdown sequence of `main`.

Modelling conventions:
* the wordlist file is an `Except String (List (Except String String))`:
  `.error e` means `File::open` failed with message `e`; otherwise each
  element is one `reader.lines()` item, `.error e` being a line whose
  decoding failed (the `line?` in the loop) and `.ok s` a decoded line;
* `HashSet<String>` becomes `Finset String`;
* channel senders are identified by `Nat` channel ids; cloning a sender
  (`tx.clone()`) yields the same id, mirroring shared ownership;
* the observable actions of `main` and `scan` (task spawns, channel drops,
  awaits, error prints, `log::error!` calls, the final cleanup) are recorded
  in a `List Event` trace in program order; `process::exit(1)` truncates the
  trace and sets exit code 1, and falling off the end of `main` exits 0.
-/

namespace Ferox

deriving instance DecidableEq for Except

/-- One terminal input event as classified by `terminal_input_handler`:
`enterKey` is exactly `Event::Key(KeyCode::Enter.into())`; any other key
press or non-key event is ignored by the handler. -/
inductive InputEvent
  | enterKey
  | otherKey
  | otherEvent
deriving DecidableEq

/-- One iteration of the `terminal_input_handler` loop, as seen through
`event::poll` / `event::read`: `input r` is an iteration where
`poll(..).unwrap_or(false)` was `true` and `event::read()` returned `r`;
`quiet complete` is an iteration where no event was available (timeout
expired, or the poll itself failed and `unwrap_or(false)` took over), with
`complete` the value of `SCAN_COMPLETE` loaded on that tick. -/
inductive Tick
  | input (r : Except String InputEvent)
  | quiet (complete : Bool)
deriving DecidableEq

/-- One iteration of the loop body of `terminal_input_handler` in
`src/main.rs` lines 32-53: given the current value of `PAUSE_SCAN` and the
tick, return the new value of `PAUSE_SCAN` and whether the loop breaks. -/
def handlerStep (pause : Bool) : Tick → Bool × Bool
  | Tick.input (Except.ok e) =>
      if e = InputEvent.enterKey then (!pause, false) else (pause, false)
  | Tick.input (Except.error _) => (pause, false)
  | Tick.quiet complete => (pause, complete)

/-- The `terminal_input_handler` loop run over a finite list of ticks,
starting from a given `PAUSE_SCAN` value: returns the final `PAUSE_SCAN`
value and whether the loop has exited via `break`. -/
def terminal_input_handler : Bool → List Tick → Bool × Bool
  | pause, [] => (pause, false)
  | pause, t :: ts =>
      if (handlerStep pause t).2 then ((handlerStep pause t).1, true)
      else terminal_input_handler (handlerStep pause t).1 ts

/-- The two error kinds `get_unique_words_from_wordlist` can return:
`ioError` when `File::open` fails, `readError` when a line of the open file
fails to decode (the `line?`). -/
inductive FeroxError
  | ioError (msg : String)
  | readError (msg : String)
deriving DecidableEq

/-- Rust `result.starts_with('#')`: the first character of the line is `#`
(false on the empty line). -/
def startsWithHash (s : String) : Bool :=
  match s.data with
  | [] => false
  | c :: _ => c = '#'

/-- Rust `result.is_empty()`: the line has no characters. -/
def lineIsEmpty (s : String) : Bool :=
  s.data.isEmpty

/-- The `for line in reader.lines()` loop of `get_unique_words_from_wordlist`
(`src/main.rs` lines 81-89): `let result = line?;` propagates a decode
failure, comment lines and empty lines are skipped, every other line is
inserted into the accumulating set. -/
def insertWords : List (Except String String) → Finset String →
    Except FeroxError (Finset String)
  | [], words => Except.ok words
  | line :: rest, words =>
      match line with
      | Except.error e => Except.error (FeroxError.readError e)
      | Except.ok result =>
          if startsWithHash result || lineIsEmpty result then
            insertWords rest words
          else
            insertWords rest (insert result words)

/-- `get_unique_words_from_wordlist` (`src/main.rs` lines 58-97): open the
wordlist file (an open failure becomes an `ioError` returned to the caller),
then collect the unique non-comment, non-empty lines into a set. -/
def get_unique_words_from_wordlist
    (file : Except String (List (Except String String))) :
    Except FeroxError (Finset String) :=
  match file with
  | Except.error e => Except.error (FeroxError.ioError e)
  | Except.ok lines => insertWords lines ∅

/-- Modelled from the spec: `get_current_depth` lives in `feroxbuster::utils`,
which is not part of the given source; the spec defines the Recursion Depth
as "an integer derived from the path-segment count of a target's initial
URL", so we take the number of non-empty `/`-separated segments of the URL. -/
def get_current_depth (url : String) : Nat :=
  (((url.data).splitOn '/').filter (fun seg => !seg.isEmpty)).length

/-- One top-level scan task spawned by `scan` (`src/main.rs` lines 130-135):
it captures its target, the clone of the shared wordlist, the base depth
computed from the target URL, and the clones of the two channel senders. -/
structure SpawnedTask where
  target : String
  wordlist : Finset String
  base_depth : Nat
  tx_term : Nat
  tx_file : Nat
deriving DecidableEq

/-- The join outcome of one spawned scan task: either the task completed
normally, or awaiting its handle produced a `JoinError` (the task panicked
or was cancelled abnormally). -/
inductive JoinOutcome
  | success
  | joinErr (msg : String)
deriving DecidableEq

/-- Observable actions of `main` and `scan`, recorded in program order. -/
inductive Event
  | spawnInputHandler
  | reporterInit
  | bannerInit
  | connectivityTest
  | printError (component : String)
  | logError (msg : String)
  | spawnTask (t : SpawnedTask)
  | joinAll (results : List JoinOutcome)
  | dropTxTerm
  | awaitTermHandle
  | dropTxFile
  | awaitFileHandle
  | setScanComplete
  | progressFinish
deriving DecidableEq

/-- How a call to `scan` ends: `procExit c` models `process::exit(c)` on the
empty-wordlist path, `err e` models returning `Err(e)` to the caller, and
`ok tasks` models returning `Ok(())` after having spawned exactly `tasks`. -/
inductive ScanResult
  | procExit (code : Nat)
  | err (e : FeroxError)
  | ok (tasks : List SpawnedTask)
deriving DecidableEq

/-- The observable actions performed inside `get_unique_words_from_wordlist`
on each error path: an open failure prints an `ERROR` line to stderr and
calls `log::error!`; a line-decode failure is propagated by `?` with no
print of its own. -/
def loaderEvents : FeroxError → List Event
  | FeroxError.ioError _ =>
      [Event.printError "main::get_unique_words_from_wordlist",
       Event.logError "Could not open wordlist"]
  | FeroxError.readError _ => []

/-- `scan` (`src/main.rs` lines 100-143): load the wordlist once (an error is
propagated to the caller with no task spawned); on an empty wordlist print an
`ERROR` line and `process::exit(1)`; otherwise spawn one task per target —
each capturing the target, a clone of the shared wordlist, the base depth of
the target URL and clones of both senders — then `join_all` every spawned
task (their join results are discarded) and return `Ok(())`.
`outcome` gives, for each target, the join result of its spawned task. -/
def scan (wordlist_file : Except String (List (Except String String)))
    (targets : List String) (tx_term tx_file : Nat)
    (outcome : String → JoinOutcome) : List Event × ScanResult :=
  match get_unique_words_from_wordlist wordlist_file with
  | Except.error e => (loaderEvents e, ScanResult.err e)
  | Except.ok words =>
      if words.card = 0 then
        ([Event.printError "main::scan"], ScanResult.procExit 1)
      else
        let tasks := targets.map (fun target =>
          { target := target
            wordlist := words
            base_depth := get_current_depth target
            tx_term := tx_term
            tx_file := tx_file : SpawnedTask })
        (tasks.map Event.spawnTask ++
           [Event.joinAll (targets.map outcome)],
         ScanResult.ok tasks)

/-- The configuration and environment of one run of `main`: the relevant
`CONFIGURATION` fields, the content of the wordlist file, the decoded lines
arriving on standard input, the external connectivity filter, and the join
outcome of each target's spawned scan task. -/
structure RunInput where
  stdin : Bool
  stdin_lines : List (Except String String)
  target_url : String
  wordlist_file : Except String (List (Except String String))
  output : String
  quiet : Bool
  connectivity : List String → List String
  outcome : String → JoinOutcome

/-- The `while let Some(line) = reader.next().await` loop of `get_targets`
(`src/main.rs` lines 156-158): push each decoded line, propagating the first
decode failure with `?` (the targets accumulated so far are discarded). -/
def read_stdin_targets : List (Except String String) →
    Except String (List String)
  | [] => Except.ok []
  | Except.error e :: _ => Except.error e
  | Except.ok line :: rest =>
      match read_stdin_targets rest with
      | Except.error e => Except.error e
      | Except.ok ts => Except.ok (line :: ts)

/-- `get_targets` (`src/main.rs` lines 145-166): in stdin mode read the
targets line by line from standard input; otherwise the single configured
target URL. -/
def get_targets (inp : RunInput) : Except String (List String) :=
  if inp.stdin then read_stdin_targets inp.stdin_lines
  else Except.ok [inp.target_url]

/-- `let save_output = !CONFIGURATION.output.is_empty();` -/
def save_output (inp : RunInput) : Bool :=
  !(inp.output.data.isEmpty)

/-- The shutdown tail of `main` (`src/main.rs` lines 224-262): drop the
terminal sender, await the terminal consumer, drop the file sender
unconditionally, await the file consumer only when `-o` was used, set
`SCAN_COMPLETE`, and finish the progress printer last. -/
def shutdownEvents (saveOut : Bool) : List Event :=
  [Event.dropTxTerm, Event.awaitTermHandle, Event.dropTxFile] ++
    (if saveOut then [Event.awaitFileHandle] else []) ++
    [Event.setScanComplete, Event.progressFinish]

/-- `main` (`src/main.rs` lines 168-263) as a trace of observable events
plus the process exit code: spawn the input handler, initialize the
reporters, resolve targets (a stdin decode failure prints an `ERROR` line and
exits 1), print the banner unless quiet, run the connectivity filter, run
`scan` (an `Err` is only logged), then perform the shutdown sequence and
exit 0. -/
def main (inp : RunInput) : List Event × Nat :=
  let pre := [Event.spawnInputHandler, Event.reporterInit]
  match get_targets inp with
  | Except.error _ => (pre ++ [Event.printError "main::get_targets"], 1)
  | Except.ok targets =>
      let bannerEvs := if inp.quiet then [] else [Event.bannerInit]
      let live := inp.connectivity targets
      let s := scan inp.wordlist_file live 0 1 inp.outcome
      match s.2 with
      | ScanResult.procExit code =>
          (pre ++ bannerEvs ++ [Event.connectivityTest] ++ s.1, code)
      | ScanResult.err _ =>
          (pre ++ bannerEvs ++ [Event.connectivityTest] ++ s.1 ++
             [Event.logError "An error occurred"] ++
             shutdownEvents (save_output inp), 0)
      | ScanResult.ok _ =>
          (pre ++ bannerEvs ++ [Event.connectivityTest] ++ s.1 ++
             shutdownEvents (save_output inp), 0)

/-- The predicate deciding which lines of the wordlist file are kept:
everything except comment lines (first character `#`) and empty lines. -/
def keepLine (w : String) : Bool :=
  !(startsWithHash w || lineIsEmpty w)

/-- Whether an event is a `log::error!` call. -/
def isLogError : Event → Bool
  | Event.logError _ => true
  | _ => false

/-- Whether a `scan` call ended in `process::exit` (the empty-wordlist
path) rather than returning to its caller. -/
def ScanResult.isProcExit : ScanResult → Bool
  | ScanResult.procExit _ => true
  | _ => false

theorem insertWords_map_ok (lines : List String) (acc : Finset String) :
    insertWords (lines.map Except.ok) acc =
      Except.ok (acc ∪ (lines.filter keepLine).toFinset) := by
  induction lines generalizing acc with
  | nil => simp [insertWords]
  | cons l rest ih =>
      by_cases h : (startsWithHash l || lineIsEmpty l) = true
      · have hk : keepLine l = false := by simp [keepLine, h]
        simp [insertWords, h, ih, List.filter_cons, hk]
      · have hk : keepLine l = true := by
          simp [keepLine, Bool.not_eq_true] at h ⊢
          exact h
        simp [insertWords, h, ih, List.filter_cons, hk,
          Finset.union_insert, Finset.insert_union]

theorem get_unique_words_map_ok (lines : List String) :
    get_unique_words_from_wordlist (Except.ok (lines.map Except.ok)) =
      Except.ok (lines.filter keepLine).toFinset := by
  simp [get_unique_words_from_wordlist, insertWords_map_ok]

/-- C2: for every wordlist file (all of whose lines decode), the loaded
wordlist equals the set of its lines that are non-empty and do not begin
with `#`, and its size equals the count of distinct non-comment, non-empty
lines — duplicates collapse silently. -/
theorem wordlist_is_set_of_kept_lines (lines : List String) :
    ∃ S : Finset String,
      get_unique_words_from_wordlist (Except.ok (lines.map Except.ok)) =
        Except.ok S ∧
      (∀ w : String,
        w ∈ S ↔ w ∈ lines ∧ startsWithHash w = false ∧ lineIsEmpty w = false) ∧
      S.card = ((lines.filter keepLine).dedup).length := by
  refine ⟨(lines.filter keepLine).toFinset, get_unique_words_map_ok lines, ?_, ?_⟩
  · intro w
    simp [List.mem_toFinset, List.mem_filter, keepLine, Bool.not_eq_true,
      Bool.or_eq_false_iff]
  · exact List.card_toFinset _

/-- C10: the wordlist loader skips only lines whose very first character is
`#` or that are exactly empty: any line in the file that does not start with
`#` and is not empty — in particular a line of only whitespace, or one with
`#` after leading whitespace — is inserted into the loaded wordlist. -/
theorem loader_keeps_whitespace_and_inner_hash_lines
    (lines : List String) (w : String) (hw : w ∈ lines)
    (h1 : startsWithHash w = false) (h2 : lineIsEmpty w = false) :
    ∃ S : Finset String,
      get_unique_words_from_wordlist (Except.ok (lines.map Except.ok)) =
        Except.ok S ∧ w ∈ S := by
  refine ⟨(lines.filter keepLine).toFinset, get_unique_words_map_ok lines, ?_⟩
  simp [List.mem_toFinset, List.mem_filter, keepLine, h1, h2]
  exact hw

/-- Witness for C10 at a concrete wordlist file: the whitespace-only line
`"   "` and the line `"  # not a comment"` (a `#` after leading whitespace)
are both loaded as probe words. -/
theorem loader_keeps_whitespace_and_inner_hash_lines_witness :
    (∃ S : Finset String,
      get_unique_words_from_wordlist
          (Except.ok (["   ", "  # not a comment", "#skip", ""].map Except.ok)) =
        Except.ok S ∧ "   " ∈ S) ∧
    (∃ S : Finset String,
      get_unique_words_from_wordlist
          (Except.ok (["   ", "  # not a comment", "#skip", ""].map Except.ok)) =
        Except.ok S ∧ "  # not a comment" ∈ S) :=
  ⟨loader_keeps_whitespace_and_inner_hash_lines
      ["   ", "  # not a comment", "#skip", ""] "   "
      (by decide) (by decide) (by decide),
   loader_keeps_whitespace_and_inner_hash_lines
      ["   ", "  # not a comment", "#skip", ""] "  # not a comment"
      (by decide) (by decide) (by decide)⟩

theorem handlerStep_exit_iff (pause : Bool) (t : Tick) :
    (handlerStep pause t).2 = true ↔ t = Tick.quiet true := by
  cases t with
  | input r =>
      cases r with
      | error e => simp [handlerStep]
      | ok e => cases e <;> simp [handlerStep]
  | quiet c => cases c <;> simp [handlerStep]

theorem handlerStep_ne_imp_enter (pause : Bool) (t : Tick)
    (h : (handlerStep pause t).1 ≠ pause) :
    t = Tick.input (Except.ok InputEvent.enterKey) := by
  cases t with
  | input r =>
      cases r with
      | error e => simp [handlerStep] at h
      | ok e => cases e <;> simp [handlerStep] at h ⊢
  | quiet c => simp [handlerStep] at h

theorem terminal_input_handler_exit_mem (pause : Bool) (ticks : List Tick)
    (h : (terminal_input_handler pause ticks).2 = true) :
    Tick.quiet true ∈ ticks := by
  induction ticks generalizing pause with
  | nil => simp [terminal_input_handler] at h
  | cons t ts ih =>
      by_cases hs : (handlerStep pause t).2 = true
      · have ht : t = Tick.quiet true := (handlerStep_exit_iff pause t).mp hs
        rw [ht]
        exact List.mem_cons_self _ _
      · simp only [terminal_input_handler] at h
        rw [if_neg hs] at h
        exact List.mem_cons_of_mem t (ih _ h)

/-- C7: the pause controller's loop toggles `PAUSE_SCAN` only on the Enter
key press (every other input event, read failure or quiet tick leaves it
unchanged), a single iteration breaks only on a quiet tick with
`SCAN_COMPLETE` set, and whenever the loop has exited, some tick of the run
was a quiet tick observing `SCAN_COMPLETE` set — its sole termination path. -/
theorem handler_toggle_and_exit_discipline
    (pause : Bool) (t : Tick) (ticks : List Tick) :
    ((handlerStep pause t).1 ≠ pause →
      t = Tick.input (Except.ok InputEvent.enterKey)) ∧
    ((handlerStep pause t).2 = true → t = Tick.quiet true) ∧
    ((terminal_input_handler pause ticks).2 = true →
      Tick.quiet true ∈ ticks) :=
  ⟨handlerStep_ne_imp_enter pause t,
   fun h => (handlerStep_exit_iff pause t).mp h,
   terminal_input_handler_exit_mem pause ticks⟩

/-- Witness for C7 at a concrete run: starting unpaused, the loop over a
non-Enter key tick followed by a quiet tick with `SCAN_COMPLETE` set exits,
and that quiet tick is indeed among the run's ticks. -/
theorem handler_toggle_and_exit_discipline_witness :
    Tick.quiet true ∈
      [Tick.input (Except.ok InputEvent.otherKey), Tick.quiet true] :=
  (handler_toggle_and_exit_discipline false (Tick.quiet true)
      [Tick.input (Except.ok InputEvent.otherKey), Tick.quiet true]).2.2
    (by decide)

/-- C8: toggling the Pause Flag twice in succession (two simulated Enter
key events through the handler's loop body) restores it to its original
value — the toggle is an involution. -/
theorem pause_toggle_involution (pause : Bool) :
    (handlerStep
        (handlerStep pause (Tick.input (Except.ok InputEvent.enterKey))).1
        (Tick.input (Except.ok InputEvent.enterKey))).1 = pause := by
  cases pause <;> rfl

/-- C4: when the wordlist loads to a non-empty set, `scan` spawns exactly
one top-level task per live target — each given that target's base depth
computed from the target URL, the shared wordlist and both senders — so
exactly N tasks for N targets, then awaits the join of all N (the `joinAll`
event carries one join result per target) before returning success. -/
theorem scan_spawns_one_task_per_target
    (file : Except String (List (Except String String)))
    (targets : List String) (tt tf : Nat) (outc : String → JoinOutcome)
    (S : Finset String)
    (h : get_unique_words_from_wordlist file = Except.ok S)
    (hne : S.card ≠ 0) :
    ∃ tasks : List SpawnedTask,
      (scan file targets tt tf outc).2 = ScanResult.ok tasks ∧
      tasks = targets.map (fun target =>
        { target := target
          wordlist := S
          base_depth := get_current_depth target
          tx_term := tt
          tx_file := tf }) ∧
      tasks.length = targets.length ∧
      (scan file targets tt tf outc).1 =
        tasks.map Event.spawnTask ++ [Event.joinAll (targets.map outc)] := by
  refine ⟨_, ?_, rfl, ?_, ?_⟩ <;>
    simp [scan, h, hne]

/-- Witness for C4 at a concrete run: two live targets, a one-word wordlist;
`scan` returns success with exactly the two tasks and their spawn events
followed by the join of both. -/
theorem scan_spawns_one_task_per_target_witness :
    ∃ tasks : List SpawnedTask,
      (scan (Except.ok [Except.ok "admin"])
          ["http://a.test", "http://b.test"] 0 1
          (fun _ => JoinOutcome.success)).2 = ScanResult.ok tasks ∧
      tasks = ["http://a.test", "http://b.test"].map (fun target =>
        { target := target
          wordlist := {"admin"}
          base_depth := get_current_depth target
          tx_term := 0
          tx_file := 1 }) ∧
      tasks.length = ["http://a.test", "http://b.test"].length ∧
      (scan (Except.ok [Except.ok "admin"])
          ["http://a.test", "http://b.test"] 0 1
          (fun _ => JoinOutcome.success)).1 =
        tasks.map Event.spawnTask ++
          [Event.joinAll (["http://a.test", "http://b.test"].map
            (fun _ => JoinOutcome.success))] :=
  scan_spawns_one_task_per_target (Except.ok [Except.ok "admin"])
    ["http://a.test", "http://b.test"] 0 1 (fun _ => JoinOutcome.success)
    {"admin"} (by decide) (by decide)

/-- C9 as stated is false on the code: in a run where the single spawned
scan task's join outcome is a panic, `scan` (whose `join_all` discards the
`Vec` of join results at `src/main.rs` line 139) emits no `log::error!`
event at all — the abnormal outcome is not logged — even though it indeed
returns success. -/
theorem join_error_not_logged_counterexample :
    ((scan (Except.ok [Except.ok "admin"]) ["http://a.test"] 0 1
        (fun _ => JoinOutcome.joinErr "task panicked")).1.filter
      (fun e => isLogError e)) = [] ∧
    (scan (Except.ok [Except.ok "admin"]) ["http://a.test"] 0 1
        (fun _ => JoinOutcome.joinErr "task panicked")).2 =
      ScanResult.ok
        [{ target := "http://a.test"
           wordlist := {"admin"}
           base_depth := get_current_depth "http://a.test"
           tx_term := 0
           tx_file := 1 }] := by
  constructor <;> decide

/-- C9 amended: an abnormal join outcome of a spawned scan task is silently
discarded — not logged — and does not abort sibling tasks or change the
orchestrator's overall success: the result of `scan` is the same whatever
the join outcomes are, `scan` still awaits every task's join result
(`join_all` over one result per target) and returns success, and its trace
contains no `log::error!` event. -/
theorem join_errors_ignored_scan_succeeds
    (file : Except String (List (Except String String)))
    (targets : List String) (tt tf : Nat)
    (outc outc2 : String → JoinOutcome) (S : Finset String)
    (h : get_unique_words_from_wordlist file = Except.ok S)
    (hne : S.card ≠ 0) :
    (scan file targets tt tf outc).2 = (scan file targets tt tf outc2).2 ∧
    (∃ tasks : List SpawnedTask,
      (scan file targets tt tf outc).2 = ScanResult.ok tasks) ∧
    Event.joinAll (targets.map outc) ∈ (scan file targets tt tf outc).1 ∧
    ((scan file targets tt tf outc).1.filter (fun e => isLogError e)) = [] := by
  have hne2 : ¬ S = ∅ := fun hS => hne (by simp [hS])
  refine ⟨?_, ⟨targets.map (fun target =>
      { target := target
        wordlist := S
        base_depth := get_current_depth target
        tx_term := tt
        tx_file := tf }), ?_⟩, ?_, ?_⟩ <;>
    simp [scan, h, if_neg hne, if_neg hne2, List.filter_append,
      List.filter_map, isLogError, Function.comp]

/-- Witness for C9 amended at a concrete run with a panicking task. -/
theorem join_errors_ignored_scan_succeeds_witness :
    (scan (Except.ok [Except.ok "admin"]) ["http://a.test"] 0 1
        (fun _ => JoinOutcome.joinErr "task panicked")).2 =
      (scan (Except.ok [Except.ok "admin"]) ["http://a.test"] 0 1
        (fun _ => JoinOutcome.success)).2 ∧
    (∃ tasks : List SpawnedTask,
      (scan (Except.ok [Except.ok "admin"]) ["http://a.test"] 0 1
          (fun _ => JoinOutcome.joinErr "task panicked")).2 =
        ScanResult.ok tasks) ∧
    Event.joinAll (["http://a.test"].map
        (fun _ => JoinOutcome.joinErr "task panicked")) ∈
      (scan (Except.ok [Except.ok "admin"]) ["http://a.test"] 0 1
        (fun _ => JoinOutcome.joinErr "task panicked")).1 ∧
    ((scan (Except.ok [Except.ok "admin"]) ["http://a.test"] 0 1
        (fun _ => JoinOutcome.joinErr "task panicked")).1.filter
      (fun e => isLogError e)) = [] :=
  join_errors_ignored_scan_succeeds (Except.ok [Except.ok "admin"])
    ["http://a.test"] 0 1 (fun _ => JoinOutcome.joinErr "task panicked")
    (fun _ => JoinOutcome.success) {"admin"} (by decide) (by decide)

theorem spawnTask_not_mem_shutdownEvents (t : SpawnedTask) (b : Bool) :
    Event.spawnTask t ∉ shutdownEvents b := by
  cases b <;> simp [shutdownEvents]

theorem spawnTask_not_mem_loaderEvents (t : SpawnedTask) (e : FeroxError) :
    Event.spawnTask t ∉ loaderEvents e := by
  cases e <;> simp [loaderEvents]

theorem read_stdin_targets_error_of_mem
    (lines : List (Except String String)) (e : String)
    (h : Except.error e ∈ lines) :
    ∃ e2, read_stdin_targets lines = Except.error e2 := by
  induction lines with
  | nil => cases h
  | cons l rest ih =>
      cases l with
      | error e3 => exact ⟨e3, rfl⟩
      | ok s =>
          have h2 : Except.error e ∈ rest := by
            rcases List.mem_cons.mp h with h1 | h1
            · cases h1
            · exact h1
          obtain ⟨e2, he2⟩ := ih h2
          exact ⟨e2, by simp [read_stdin_targets, he2]⟩

/-- C1 as stated is false on the code: in this concrete run whose wordlist
file fails to open, the failure is indeed propagated and no scan task is
spawned, but `main` only logs the error, runs the shutdown sequence and the
process exits with status 0 — not non-zero. -/
theorem wordlist_open_failure_exits_zero_counterexample :
    (Ferox.main
      { stdin := false
        stdin_lines := []
        target_url := "http://a.test"
        wordlist_file := Except.error "No such file or directory (os error 2)"
        output := ""
        quiet := false
        connectivity := fun ts => ts
        outcome := fun _ => JoinOutcome.success }).2 = 0 ∧
    Event.setScanComplete ∈
      (Ferox.main
        { stdin := false
          stdin_lines := []
          target_url := "http://a.test"
          wordlist_file := Except.error "No such file or directory (os error 2)"
          output := ""
          quiet := false
          connectivity := fun ts => ts
          outcome := fun _ => JoinOutcome.success }).1 := by
  constructor <;> decide

/-- C1 amended: for every run in which opening the wordlist file fails (and
target resolution itself succeeded, so the orchestrator runs), the failure
is propagated to the orchestrator's caller without spawning any scan task;
the caller, however, merely logs the error, completes the shutdown
sequence, and the process exits with status 0 rather than non-zero. -/
theorem wordlist_open_failure_propagated_no_spawn
    (inp : RunInput) (e : String) (targets : List String)
    (h : inp.wordlist_file = Except.error e)
    (hg : get_targets inp = Except.ok targets) :
    (scan inp.wordlist_file (inp.connectivity targets) 0 1 inp.outcome).2 =
      ScanResult.err (FeroxError.ioError e) ∧
    (∀ t : SpawnedTask, Event.spawnTask t ∉ (Ferox.main inp).1) ∧
    (Ferox.main inp).2 = 0 := by
  have hscan : scan inp.wordlist_file (inp.connectivity targets) 0 1
      inp.outcome =
      (loaderEvents (FeroxError.ioError e),
       ScanResult.err (FeroxError.ioError e)) := by
    simp [scan, get_unique_words_from_wordlist, h]
  refine ⟨by rw [hscan], ?_, ?_⟩
  · intro t
    cases hq : inp.quiet <;> cases hs : save_output inp <;>
      simp [Ferox.main, hg, hscan, hq, hs, loaderEvents, shutdownEvents]
  · simp [Ferox.main, hg, hscan]

/-- Witness for C1 amended at the concrete run of the counterexample. -/
theorem wordlist_open_failure_propagated_no_spawn_witness :
    (scan (RunInput.wordlist_file
        { stdin := false
          stdin_lines := []
          target_url := "http://a.test"
          wordlist_file := Except.error "No such file or directory (os error 2)"
          output := ""
          quiet := false
          connectivity := fun ts => ts
          outcome := fun _ => JoinOutcome.success })
        (["http://a.test"]) 0 1 (fun _ => JoinOutcome.success)).2 =
      ScanResult.err
        (FeroxError.ioError "No such file or directory (os error 2)") ∧
    (∀ t : SpawnedTask, Event.spawnTask t ∉
      (Ferox.main
        { stdin := false
          stdin_lines := []
          target_url := "http://a.test"
          wordlist_file := Except.error "No such file or directory (os error 2)"
          output := ""
          quiet := false
          connectivity := fun ts => ts
          outcome := fun _ => JoinOutcome.success }).1) ∧
    (Ferox.main
      { stdin := false
        stdin_lines := []
        target_url := "http://a.test"
        wordlist_file := Except.error "No such file or directory (os error 2)"
        output := ""
        quiet := false
        connectivity := fun ts => ts
        outcome := fun _ => JoinOutcome.success }).2 = 0 := by
  exact wordlist_open_failure_propagated_no_spawn _
    "No such file or directory (os error 2)" ["http://a.test"] rfl rfl

/-- C3 as stated is false on the code: in this concrete run whose wordlist
holds only a comment line and a blank line, the process does exit 1 with an
`ERROR` report before spawning any task, but the connectivity test has
already run by then — `main` performs the connectivity filter before `scan`
ever loads the wordlist, so the fast failure does not avoid the
connectivity checks. -/
theorem empty_wordlist_connectivity_already_run_counterexample :
    (Ferox.main
      { stdin := false
        stdin_lines := []
        target_url := "http://a.test"
        wordlist_file := Except.ok [Except.ok "# only a comment", Except.ok ""]
        output := ""
        quiet := false
        connectivity := fun ts => ts
        outcome := fun _ => JoinOutcome.success }).2 = 1 ∧
    Event.connectivityTest ∈
      (Ferox.main
        { stdin := false
          stdin_lines := []
          target_url := "http://a.test"
          wordlist_file := Except.ok [Except.ok "# only a comment", Except.ok ""]
          output := ""
          quiet := false
          connectivity := fun ts => ts
          outcome := fun _ => JoinOutcome.success }).1 := by
  constructor <;> decide

/-- C3 amended: for every run whose wordlist file yields an empty set, the
process reports the error and terminates with a non-zero status before any
scan task is spawned; the fast failure avoids the task spawns but not the
connectivity checks, which `main` has already performed before the wordlist
is loaded. -/
theorem empty_wordlist_fatal_before_any_spawn
    (inp : RunInput) (targets : List String) (S : Finset String)
    (hg : get_targets inp = Except.ok targets)
    (hw : get_unique_words_from_wordlist inp.wordlist_file = Except.ok S)
    (hcard : S.card = 0) :
    (Ferox.main inp).2 = 1 ∧
    Event.printError "main::scan" ∈ (Ferox.main inp).1 ∧
    (∀ t : SpawnedTask, Event.spawnTask t ∉ (Ferox.main inp).1) ∧
    Event.connectivityTest ∈ (Ferox.main inp).1 := by
  have hscan : scan inp.wordlist_file (inp.connectivity targets) 0 1
      inp.outcome =
      ([Event.printError "main::scan"], ScanResult.procExit 1) := by
    simp [scan, hw, hcard]
  refine ⟨?_, ?_, ?_, ?_⟩
  · simp [Ferox.main, hg, hscan]
  · simp [Ferox.main, hg, hscan]
  · intro t
    cases hq : inp.quiet <;>
      simp [Ferox.main, hg, hscan, hq]
  · simp [Ferox.main, hg, hscan]

/-- Witness for C3 amended at the concrete run of the counterexample. -/
theorem empty_wordlist_fatal_before_any_spawn_witness :
    (Ferox.main
      { stdin := false
        stdin_lines := []
        target_url := "http://a.test"
        wordlist_file := Except.ok [Except.ok "# only a comment", Except.ok ""]
        output := ""
        quiet := false
        connectivity := fun ts => ts
        outcome := fun _ => JoinOutcome.success }).2 = 1 ∧
    Event.printError "main::scan" ∈
      (Ferox.main
        { stdin := false
          stdin_lines := []
          target_url := "http://a.test"
          wordlist_file := Except.ok [Except.ok "# only a comment", Except.ok ""]
          output := ""
          quiet := false
          connectivity := fun ts => ts
          outcome := fun _ => JoinOutcome.success }).1 ∧
    (∀ t : SpawnedTask, Event.spawnTask t ∉
      (Ferox.main
        { stdin := false
          stdin_lines := []
          target_url := "http://a.test"
          wordlist_file := Except.ok [Except.ok "# only a comment", Except.ok ""]
          output := ""
          quiet := false
          connectivity := fun ts => ts
          outcome := fun _ => JoinOutcome.success }).1) ∧
    Event.connectivityTest ∈
      (Ferox.main
        { stdin := false
          stdin_lines := []
          target_url := "http://a.test"
          wordlist_file := Except.ok [Except.ok "# only a comment", Except.ok ""]
          output := ""
          quiet := false
          connectivity := fun ts => ts
          outcome := fun _ => JoinOutcome.success }).1 :=
  empty_wordlist_fatal_before_any_spawn _ ["http://a.test"] ∅ rfl
    (by decide) (by decide)

/-- C5: after orchestration completes (the run reaches the shutdown code,
i.e. target resolution succeeded and `scan` returned instead of exiting),
the trace of `main` ends with exactly the shutdown steps in strict order:
drop the terminal sender, await the terminal consumer, drop the file sender
unconditionally, await the file consumer only if file output was requested,
set the Completion Flag, and — as the very last action — finish the
progress display. -/
theorem shutdown_sequence_strict_order
    (inp : RunInput) (targets : List String)
    (hg : get_targets inp = Except.ok targets)
    (hnp : ((scan inp.wordlist_file (inp.connectivity targets) 0 1
        inp.outcome).2).isProcExit = false) :
    ∃ pre : List Event,
      (Ferox.main inp).1 =
        pre ++ ([Event.dropTxTerm, Event.awaitTermHandle, Event.dropTxFile] ++
          (if save_output inp then [Event.awaitFileHandle] else []) ++
          [Event.setScanComplete, Event.progressFinish]) := by
  cases hres : (scan inp.wordlist_file (inp.connectivity targets) 0 1
      inp.outcome).2 with
  | procExit c =>
      rw [hres] at hnp
      simp [ScanResult.isProcExit] at hnp
  | err e =>
      refine ⟨[Event.spawnInputHandler, Event.reporterInit] ++
        (if inp.quiet then [] else [Event.bannerInit]) ++
        [Event.connectivityTest] ++
        (scan inp.wordlist_file (inp.connectivity targets) 0 1
          inp.outcome).1 ++
        [Event.logError "An error occurred"], ?_⟩
      simp [Ferox.main, hg, hres, shutdownEvents, List.append_assoc]
  | ok tasks =>
      refine ⟨[Event.spawnInputHandler, Event.reporterInit] ++
        (if inp.quiet then [] else [Event.bannerInit]) ++
        [Event.connectivityTest] ++
        (scan inp.wordlist_file (inp.connectivity targets) 0 1
          inp.outcome).1, ?_⟩
      simp [Ferox.main, hg, hres, shutdownEvents, List.append_assoc]

/-- Witness for C5 at a concrete successful run (one target, one-word
wordlist, no file output). -/
theorem shutdown_sequence_strict_order_witness :
    ∃ pre : List Event,
      (Ferox.main
        { stdin := false
          stdin_lines := []
          target_url := "http://a.test"
          wordlist_file := Except.ok [Except.ok "admin"]
          output := ""
          quiet := false
          connectivity := fun ts => ts
          outcome := fun _ => JoinOutcome.success }).1 =
        pre ++ ([Event.dropTxTerm, Event.awaitTermHandle, Event.dropTxFile] ++
          (if save_output
              { stdin := false
                stdin_lines := []
                target_url := "http://a.test"
                wordlist_file := Except.ok [Except.ok "admin"]
                output := ""
                quiet := false
                connectivity := fun ts => ts
                outcome := fun _ => JoinOutcome.success }
            then [Event.awaitFileHandle] else []) ++
          [Event.setScanComplete, Event.progressFinish]) :=
  shutdown_sequence_strict_order _ ["http://a.test"] rfl (by decide)

/-- C6: for every run in stdin-target mode in which decoding a line of the
input stream fails, `main` prints a structured `ERROR` diagnostic for
`main::get_targets` and exits with status 1, and no scan task is spawned
for any target — including targets already read before the failure. -/
theorem stdin_decode_failure_fatal_no_spawn
    (inp : RunInput) (e : String)
    (hstdin : inp.stdin = true)
    (herr : Except.error e ∈ inp.stdin_lines) :
    (Ferox.main inp).2 = 1 ∧
    Event.printError "main::get_targets" ∈ (Ferox.main inp).1 ∧
    (∀ t : SpawnedTask, Event.spawnTask t ∉ (Ferox.main inp).1) := by
  obtain ⟨e2, he2⟩ :=
    read_stdin_targets_error_of_mem inp.stdin_lines e herr
  have hg : get_targets inp = Except.error e2 := by
    simp [get_targets, hstdin, he2]
  refine ⟨?_, ?_, ?_⟩ <;>
    simp [Ferox.main, hg]

/-- Witness for C6 at a concrete run: one target decodes before the stream's
second line fails to decode; the process exits 1, prints the diagnostic,
and spawns nothing — not even for the already-read `http://a.test`. -/
theorem stdin_decode_failure_fatal_no_spawn_witness :
    (Ferox.main
      { stdin := true
        stdin_lines := [Except.ok "http://a.test",
                        Except.error "invalid utf-8 sequence"]
        target_url := ""
        wordlist_file := Except.ok [Except.ok "admin"]
        output := ""
        quiet := false
        connectivity := fun ts => ts
        outcome := fun _ => JoinOutcome.success }).2 = 1 ∧
    Event.printError "main::get_targets" ∈
      (Ferox.main
        { stdin := true
          stdin_lines := [Except.ok "http://a.test",
                          Except.error "invalid utf-8 sequence"]
          target_url := ""
          wordlist_file := Except.ok [Except.ok "admin"]
          output := ""
          quiet := false
          connectivity := fun ts => ts
          outcome := fun _ => JoinOutcome.success }).1 ∧
    (∀ t : SpawnedTask, Event.spawnTask t ∉
      (Ferox.main
        { stdin := true
          stdin_lines := [Except.ok "http://a.test",
                          Except.error "invalid utf-8 sequence"]
          target_url := ""
          wordlist_file := Except.ok [Except.ok "admin"]
          output := ""
          quiet := false
          connectivity := fun ts => ts
          outcome := fun _ => JoinOutcome.success }).1) :=
  stdin_decode_failure_fatal_no_spawn _ "invalid utf-8 sequence" rfl
    (by decide)

end Ferox
